import Mathlib

/-!
Shallow embedding of the Gemini message/content conversion and
safety-enforcement pipeline (the `gemini` utility module): content codec,
response aggregation, safety handlers, the safe builder wrapper, and
generation-parameter validation.

Modelling conventions: JS strings are lists of characters (`Str`);
possibly-`undefined` fields are `Option`; thrown exceptions are the error
side of `Except`.  `GErr.safety` models `GoogleAISafetyError` (carrying the
original response and a message), `GErr.jsError` models an explicit
`throw new Error(...)`, and `GErr.jsRuntime` models an untyped JS runtime
failure (e.g. a property access on `undefined`, or `reduce` of an empty
array with no initial value).
-/

set_option autoImplicit false

deriving instance DecidableEq for Except

/-- JS strings, modelled as lists of characters. -/
abbrev Str : Type := List Char

/-- Character list of a Lean string literal. -/
def str (s : String) : Str := s.data

/-- JS template-literal rendering of a possibly-`undefined` string
(`undefined` renders as the text "undefined"). -/
def jsTemplate : Option Str → Str
  | some s => s
  | none => str "undefined"

/-- JS truthiness of a possibly-`undefined` string: `undefined` and the
empty string are falsy. -/
def truthyStr : Option Str → Bool
  | some s => !s.isEmpty
  | none => false

/-- JS `String.prototype.startsWith` (first argument: the string,
second: the search text). -/
def jsStartsWith : Str → Str → Bool
  | _, [] => true
  | [], _ :: _ => false
  | c :: cs, p :: ps => (c == p) && jsStartsWith cs ps

/-- JS `String.prototype.split` with a single-character separator. -/
def splitOnChar (sep : Char) : Str → List Str
  | [] => [[]]
  | c :: cs =>
    match splitOnChar sep cs with
    | [] => [[]]
    | h :: t => if c = sep then [] :: h :: t else (c :: h) :: t

/-- JS `Array.prototype.includes` applied to a possibly-`undefined`
string: `undefined` is never a member of a list of strings. -/
def jsIncludes (l : List Str) : Option Str → Bool
  | some s => decide (s ∈ l)
  | none => false

/-! ## Provider data model (`types.js` shapes as used by the module) -/

/-- `GeminiPart`: `{text}`, `{inlineData:{mimeType,data}}` or
`{fileData:{mimeType,fileUri}}`.  The `data` field of `inlineData` may be
`undefined` at runtime (a `data:` URL with no comma). -/
inductive GeminiPart : Type where
  | text (text : Str)
  | inlineData (mimeType : Str) (data : Option Str)
  | fileData (mimeType : Str) (fileUri : Str)
  deriving DecidableEq, Repr

/-- `GeminiContent`: `{role, parts}`.  Response payloads are cast from
unknown data, so either field may be absent at runtime. -/
structure GeminiContent : Type where
  role : Option Str
  parts : Option (List GeminiPart)
  deriving DecidableEq, Repr

/-- One response candidate: `{content, finishReason?}`. -/
structure Candidate : Type where
  content : Option GeminiContent
  finishReason : Option Str
  deriving DecidableEq, Repr

/-- `promptFeedback` of a response payload. -/
structure PromptFeedback : Type where
  blockReason : Option Str
  deriving DecidableEq, Repr

/-- `GenerateContentResponseData`: the canonical payload. -/
structure GenerateContentResponseData : Type where
  candidates : Option (List Candidate)
  promptFeedback : Option PromptFeedback
  deriving DecidableEq, Repr

/-- The `data` field of a `GoogleLLMResponse`: a single payload, an array
of payloads (batch), or a stream handle (detected in the source by probing
for a `nextChunk` property; opaque here). -/
inductive ResponseData : Type where
  | single (d : GenerateContentResponseData)
  | array (ds : List GenerateContentResponseData)
  | stream
  deriving DecidableEq, Repr

/-- `GoogleLLMResponse` (only its `data` field is inspected by the
module; the remaining fields are carried opaquely by the spread
`{...response, data}` and are omitted). -/
structure GoogleLLMResponse : Type where
  data : ResponseData
  deriving DecidableEq, Repr

/-- Exceptions thrown by the module. -/
inductive GErr : Type where
  | safety (response : GoogleLLMResponse) (message : Str)
  | jsError (message : Str)
  | jsRuntime (message : Str)
  deriving DecidableEq, Repr

/-- `GoogleAISafetyError` after the safe wrapper may have attached a
computed `reply` of the builder's return type. -/
inductive GErrWithReply (α : Type) : Type where
  | safety (response : GoogleLLMResponse) (message : Str) (reply : Option α)
  | jsError (message : Str)
  | jsRuntime (message : Str)
  deriving DecidableEq, Repr

/-! ## Caller-side message model (`@langchain/core/messages` shapes) -/

/-- The `image_url` field of an image content part: either a plain string
or an object `{url}`. -/
inductive ImageUrlField : Type where
  | direct (url : Str)
  | nested (url : Str)
  deriving DecidableEq, Repr

/-- A structured message content part: `{type:"text", text}` or
`{type:"image_url", image_url}`. -/
inductive MessageContentComplex : Type where
  | text (text : Str)
  | imageUrl (image_url : ImageUrlField)
  deriving DecidableEq, Repr

/-- `MessageContent`: a plain string or a list of structured parts. -/
inductive MessageContent : Type where
  | plain (s : Str)
  | complexList (l : List MessageContentComplex)
  deriving DecidableEq, Repr

/-- A chat message: its `_getType()` tag and its content. -/
structure BaseMessage : Type where
  msgType : Str
  content : MessageContent
  deriving DecidableEq, Repr

/-- `new AIMessage(text)`. -/
def AIMessage (text : Str) : BaseMessage :=
  { msgType := str "ai", content := MessageContent.plain text }

/-! ## ContentCodec: encoding messages to provider parts -/

/-- `messageContentText`: a text content part maps to a `{text}` part. -/
def messageContentText (text : Str) : GeminiPart :=
  GeminiPart.text text

/-- `messageContentImageUrl`: an empty url throws `Missing Image URL`; a
`data:` url is split into mime type (`url.split(":")[1].split(";")[0]`)
and base64 payload (`url.split(",")[1]`) producing `inlineData`; any other
url produces `fileData` with the placeholder mime type `image/png`. -/
def messageContentImageUrl (content : ImageUrlField) : Except GErr GeminiPart :=
  let url : Str :=
    match content with
    | .direct u => u
    | .nested u => u
  if url.isEmpty then
    .error (.jsError (str "Missing Image URL"))
  else if jsStartsWith url (str "data:") then
    match (splitOnChar ':' url).get? 1 with
    | some seg =>
      .ok (GeminiPart.inlineData ((splitOnChar ';' seg).headD [])
        ((splitOnChar ',' url).get? 1))
    | none => .error (.jsRuntime (str "TypeError: cannot read properties of undefined"))
  else
    .ok (GeminiPart.fileData (str "image/png") url)

/-- The per-part `switch` inside `messageContentToParts`. -/
def contentComplexToPart : MessageContentComplex → Except GErr GeminiPart
  | .text t => .ok (messageContentText t)
  | .imageUrl u => messageContentImageUrl u

/-- The `map` over structured parts inside `messageContentToParts`
(in the `Except` monad, as image conversion can throw). -/
def mapContentToParts : List MessageContentComplex → Except GErr (List GeminiPart)
  | [] => .ok []
  | c :: cs =>
    match contentComplexToPart c with
    | .ok p =>
      match mapContentToParts cs with
      | .ok ps => .ok (p :: ps)
      | .error e => .error e
    | .error e => .error e

/-- `messageContentToParts`: a plain string is first promoted to a single
text part, then each part is converted. -/
def messageContentToParts (content : MessageContent) : Except GErr (List GeminiPart) :=
  let messageContent : List MessageContentComplex :=
    match content with
    | .plain s => [MessageContentComplex.text s]
    | .complexList l => l
  mapContentToParts messageContent

/-- `roleMessageToContent`: wraps the converted parts in one
`GeminiContent` with the given role. -/
def roleMessageToContent (role : Str) (message : BaseMessage) :
    Except GErr (List GeminiContent) :=
  match messageContentToParts message.content with
  | .ok parts => .ok [{ role := some role, parts := some parts }]
  | .error e => .error e

/-- `systemMessageToContent`: a System message expands into a user turn
with the system text followed by a synthetic model turn `"Ok"`. -/
def systemMessageToContent (message : BaseMessage) : Except GErr (List GeminiContent) :=
  match roleMessageToContent (str "user") message with
  | .ok a =>
    match roleMessageToContent (str "model") (AIMessage (str "Ok")) with
    | .ok b => .ok (a ++ b)
    | .error e => .error e
  | .error e => .error e

/-- `baseMessageToContent`: dispatch on the message type; unsupported
types log a warning and produce the empty list. -/
def baseMessageToContent (message : BaseMessage) : Except GErr (List GeminiContent) :=
  if message.msgType = str "system" then systemMessageToContent message
  else if message.msgType = str "human" then roleMessageToContent (str "user") message
  else if message.msgType = str "ai" then roleMessageToContent (str "model") message
  else .ok []

/-! ## ContentCodec: decoding provider parts to message content -/

/-- `textPartToMessageContent`. -/
def textPartToMessageContent (text : Str) : MessageContentComplex :=
  MessageContentComplex.text text

/-- `inlineDataPartToMessageContent`: rebuilds the `data:` URI with the
template literal `data:${mimeType};base64,${data}`. -/
def inlineDataPartToMessageContent (mimeType : Str) (data : Option Str) :
    MessageContentComplex :=
  MessageContentComplex.imageUrl
    (.direct (str "data:" ++ mimeType ++ str ";base64," ++ jsTemplate data))

/-- `fileDataPartToMessageContent`: the file URI becomes the image url. -/
def fileDataPartToMessageContent (fileUri : Str) : MessageContentComplex :=
  MessageContentComplex.imageUrl (.direct fileUri)

/-- The per-part decode step inside `partsToMessageContent` (the `map`
callback; unrecognized or null shapes decode to nothing). -/
def partToContent : GeminiPart → Option MessageContentComplex
  | .text t => some (textPartToMessageContent t)
  | .inlineData m d => some (inlineDataPartToMessageContent m d)
  | .fileData _ u => some (fileDataPartToMessageContent u)

/-- `partsToMessageContent`: map each part and filter out the dropped
ones (the source's map-then-reduce accumulation). -/
def partsToMessageContent (parts : List GeminiPart) : List MessageContentComplex :=
  parts.filterMap partToContent

/-! ## ResponseAggregator -/

/-- `data?.candidates?.[0]`. -/
def firstCandidate (data : GenerateContentResponseData) : Option Candidate :=
  data.candidates.bind List.head?

/-- `data?.candidates?.[0]?.content`. -/
def firstContent (data : GenerateContentResponseData) : Option GeminiContent :=
  (firstCandidate data).bind Candidate.content

/-- `data?.candidates?.[0]?.content?.parts`. -/
def firstParts (data : GenerateContentResponseData) : Option (List GeminiPart) :=
  (firstContent data).bind GeminiContent.parts

/-- One step of the `reduce` in `responseToGenerateContentResponseData`:
push `val?.candidates?.[0]?.content?.parts ?? []` onto
`acc.candidates[0].content.parts` (a runtime `TypeError` if that chain is
absent on the accumulator) and overwrite `promptFeedback` with `val`'s. -/
def foldStep (acc val : GenerateContentResponseData) :
    Except GErr GenerateContentResponseData :=
  let valParts := (firstParts val).getD []
  match acc.candidates with
  | some (c0 :: rest) =>
    match c0.content with
    | some cv =>
      match cv.parts with
      | some ps =>
        let newFirst : Candidate :=
          { c0 with content := some { cv with parts := some (ps ++ valParts) } }
        .ok { candidates := some (newFirst :: rest), promptFeedback := val.promptFeedback }
      | none => .error (.jsRuntime (str "TypeError: cannot read properties of undefined"))
    | none => .error (.jsRuntime (str "TypeError: cannot read properties of undefined"))
  | _ => .error (.jsRuntime (str "TypeError: cannot read properties of undefined"))

/-- The left fold of `reduce` once seeded with the first element. -/
def foldAll (acc : GenerateContentResponseData) :
    List GenerateContentResponseData → Except GErr GenerateContentResponseData
  | [] => .ok acc
  | v :: vs =>
    match foldStep acc v with
    | .ok acc2 => foldAll acc2 vs
    | .error e => .error e

/-- JS `Array.prototype.reduce` with no initial value: a `TypeError` on
an empty array, otherwise the first element seeds the accumulator. -/
def jsReduce : List GenerateContentResponseData → Except GErr GenerateContentResponseData
  | [] => .error (.jsRuntime (str "Reduce of empty array with no initial value"))
  | d :: ds => foldAll d ds

/-- `responseToGenerateContentResponseData`: streams throw, arrays are
collapsed by the reduce, a single payload is returned as-is. -/
def responseToGenerateContentResponseData (response : GoogleLLMResponse) :
    Except GErr GenerateContentResponseData :=
  match response.data with
  | .stream => .error (.jsError (str "Cannot convert Stream to GenerateContentResponseData"))
  | .array ds => jsReduce ds
  | .single d => .ok d

/-- `responseToParts`. -/
def responseToParts (response : GoogleLLMResponse) : Except GErr (List GeminiPart) :=
  match responseToGenerateContentResponseData response with
  | .ok responseData => .ok ((firstParts responseData).getD [])
  | .error e => .error e

/-- `partToText`: `"text" in part ? part.text : ""`. -/
def partToText : GeminiPart → Str
  | .text t => t
  | _ => []

/-- `responseToString`: concatenation of the text of every part. -/
def responseToString (response : GoogleLLMResponse) : Except GErr Str :=
  match responseToParts response with
  | .ok parts => .ok (parts.foldl (fun acc part => acc ++ partToText part) [])
  | .error e => .error e

/-! ## SafetyPolicy: the strict handler -/

/-- The default `errorFinish` set of `DefaultGeminiSafetyHandler`. -/
def DefaultGeminiSafetyHandler.defaultErrorFinish : List Str :=
  [str "SAFETY", str "RECITATION", str "OTHER"]

/-- `handleDataPromptFeedback`: a truthy `blockReason` throws
`GoogleAISafetyError` with message `Prompt blocked: <reason>`. -/
def DefaultGeminiSafetyHandler.handleDataPromptFeedback (response : GoogleLLMResponse)
    (data : GenerateContentResponseData) : Except GErr GenerateContentResponseData :=
  let blockReason := data.promptFeedback.bind PromptFeedback.blockReason
  if truthyStr blockReason then
    .error (.safety response (str "Prompt blocked: " ++ jsTemplate blockReason))
  else
    .ok data

/-- `handleDataFinishReason`: a first-candidate finish reason contained in
`errorFinish` throws `GoogleAISafetyError` with message
`Finish reason: <reason>`. -/
def DefaultGeminiSafetyHandler.handleDataFinishReason (errorFinish : List Str)
    (response : GoogleLLMResponse) (data : GenerateContentResponseData) :
    Except GErr GenerateContentResponseData :=
  let finishReason := (firstCandidate data).bind Candidate.finishReason
  if jsIncludes errorFinish finishReason then
    .error (.safety response (str "Finish reason: " ++ jsTemplate finishReason))
  else
    .ok data

/-- `handleData`: the prompt-feedback check followed by the finish-reason
check. -/
def DefaultGeminiSafetyHandler.handleData (errorFinish : List Str)
    (response : GoogleLLMResponse) (data : GenerateContentResponseData) :
    Except GErr GenerateContentResponseData :=
  match DefaultGeminiSafetyHandler.handleDataPromptFeedback response data with
  | .ok ret => DefaultGeminiSafetyHandler.handleDataFinishReason errorFinish response ret
  | .error e => .error e

/-- The `map` over array items inside `handle`. -/
def DefaultGeminiSafetyHandler.mapHandleData (errorFinish : List Str)
    (response : GoogleLLMResponse) :
    List GenerateContentResponseData → Except GErr (List GenerateContentResponseData)
  | [] => .ok []
  | d :: ds =>
    match DefaultGeminiSafetyHandler.handleData errorFinish response d with
    | .ok nd =>
      match DefaultGeminiSafetyHandler.mapHandleData errorFinish response ds with
      | .ok nds => .ok (nd :: nds)
      | .error e => .error e
    | .error e => .error e

/-- `handle`: streams pass through; arrays are checked item by item and a
safety rejection is rethrown wrapped with the full response; a single
payload is checked directly. -/
def DefaultGeminiSafetyHandler.handle (errorFinish : List Str)
    (response : GoogleLLMResponse) : Except GErr GoogleLLMResponse :=
  match response.data with
  | .stream => .ok response
  | .array ds =>
    match DefaultGeminiSafetyHandler.mapHandleData errorFinish response ds with
    | .ok newds => .ok { response with data := .array newds }
    | .error (.safety _ m) => .error (.safety response m)
    | .error e => .error e
  | .single d =>
    match DefaultGeminiSafetyHandler.handleData errorFinish response d with
    | .ok nd => .ok { response with data := .single nd }
    | .error e => .error e

/-! ## SafetyPolicy: the recovering (message-substituting) handler -/

/-- `MessageGeminiSafetyHandler.setMessage`: when `forceNewMessage` is set
or the first candidate has no parts, replace the first candidate's content
with `{role:"model", parts:[{text: msg}]}` (creating the candidate slot if
needed); otherwise keep the payload. -/
def MessageGeminiSafetyHandler.setMessage (msg : Str) (forceNewMessage : Bool)
    (data : GenerateContentResponseData) : GenerateContentResponseData :=
  if forceNewMessage || ((firstParts data).getD []).isEmpty then
    let cands := data.candidates.getD []
    let c0 := cands.head?.getD { content := none, finishReason := none }
    let newContent : GeminiContent :=
      { role := some (str "model"), parts := some [GeminiPart.text msg] }
    { data with candidates := some ({ c0 with content := some newContent } :: cands.tail) }
  else
    data

/-- `MessageGeminiSafetyHandler.handleData`: run the inherited checks and
convert any thrown error into `setMessage` applied to the payload. -/
def MessageGeminiSafetyHandler.handleData (errorFinish : List Str) (msg : Str)
    (forceNewMessage : Bool) (response : GoogleLLMResponse)
    (data : GenerateContentResponseData) : Except GErr GenerateContentResponseData :=
  match DefaultGeminiSafetyHandler.handleData errorFinish response data with
  | .ok ret => .ok ret
  | .error _ => .ok (MessageGeminiSafetyHandler.setMessage msg forceNewMessage data)

/-! ## The safe builder wrapper -/

/-- Lift a handler error into the reply-carrying error type (no reply
attached). -/
def liftGErr {α : Type} : GErr → GErrWithReply α
  | .safety r m => .safety r m none
  | .jsError m => .jsError m
  | .jsRuntime m => .jsRuntime m

/-- `safeResponseTo`: run the safety handler then the builder inside a
`try`; on a caught `GoogleAISafetyError`, compute the builder over the
error's carried response, attach it as the error's `reply`, and rethrow;
other errors are rethrown unchanged. -/
def safeResponseTo {α : Type} (safetyHandle : GoogleLLMResponse → Except GErr GoogleLLMResponse)
    (responseTo : GoogleLLMResponse → Except GErr α) (response : GoogleLLMResponse) :
    Except (GErrWithReply α) α :=
  match (match safetyHandle response with
         | .ok safeResponse => responseTo safeResponse
         | .error e => .error e : Except GErr α) with
  | .ok v => .ok v
  | .error (.safety r m) =>
    match responseTo r with
    | .ok ret => .error (GErrWithReply.safety r m (some ret))
    | .error e => .error (liftGErr e)
  | .error e => .error (liftGErr e)

/-! ## Parameter validation -/

/-- The four validated generation parameters (JS numbers modelled as
rationals; each may be absent). -/
structure GoogleAIModelParams : Type where
  maxOutputTokens : Option ℚ
  temperature : Option ℚ
  topP : Option ℚ
  topK : Option ℚ
  deriving DecidableEq, Repr

/-- JS truthiness of a possibly-`undefined` number: `undefined` and `0`
are falsy. -/
def numTruthy : Option ℚ → Bool
  | some x => decide (x ≠ 0)
  | none => false

/-- `validateGeminiParams`: each guard is `params.field && <out of range>`
in source order, throwing a descriptive `Error`. -/
def validateGeminiParams (params : GoogleAIModelParams) : Except GErr Unit :=
  if numTruthy params.maxOutputTokens && decide (params.maxOutputTokens.getD 0 < 0) then
    .error (.jsError (str "`maxOutputTokens` must be a positive integer"))
  else if numTruthy params.temperature &&
      decide (params.temperature.getD 0 < 0 ∨ 1 < params.temperature.getD 0) then
    .error (.jsError (str "`temperature` must be in the range of [0.0,1.0]"))
  else if numTruthy params.topP &&
      decide (params.topP.getD 0 < 0 ∨ 1 < params.topP.getD 0) then
    .error (.jsError (str "`topP` must be in the range of [0.0,1.0]"))
  else if numTruthy params.topK && decide (params.topK.getD 0 < 0) then
    .error (.jsError (str "`topK` must be a positive integer"))
  else
    .ok ()

/-! ## Spec-side descriptions used by refinement claims -/

/-- Spec §4.3 stage 2, written from the spec text: reject when
`payload.candidates[0].finishReason` is a member of the disallowed set. -/
def specFinishReasonCheck (errorFinish : List Str) (response : GoogleLLMResponse)
    (payload : GenerateContentResponseData) : Except GErr GenerateContentResponseData :=
  match (firstCandidate payload).bind Candidate.finishReason with
  | some reason =>
    if reason ∈ errorFinish then .error (.safety response (str "Finish reason: " ++ reason))
    else .ok payload
  | none => .ok payload

/-- Spec §4.3, written from the spec text: if `promptFeedback.blockReason`
is set (non-empty) reject with `Prompt blocked: <reason>`; otherwise apply
the finish-reason check; otherwise return the payload unchanged. -/
def enforceSpec (errorFinish : List Str) (response : GoogleLLMResponse)
    (payload : GenerateContentResponseData) : Except GErr GenerateContentResponseData :=
  match payload.promptFeedback.bind PromptFeedback.blockReason with
  | some reason =>
    if reason = [] then specFinishReasonCheck errorFinish response payload
    else .error (.safety response (str "Prompt blocked: " ++ reason))
  | none => specFinishReasonCheck errorFinish response payload

/-! ## Derived definitions used by the theorems and witnesses -/

/-- The `data:` URI built from a mime type and a base64 payload. -/
def dataUri (mime payload : Str) : Str :=
  str "data:" ++ mime ++ str ";base64," ++ payload

/-- Concatenation, in encounter order, of every element's first-candidate
parts (an element without the chain contributes nothing). -/
def partsConcat (ds : List GenerateContentResponseData) : List GeminiPart :=
  (ds.map (fun d => (firstParts d).getD [])).flatten

/-- Last element of a nonempty list, given as head and tail. -/
def lastD (d : GenerateContentResponseData) :
    List GenerateContentResponseData → GenerateContentResponseData
  | [] => d
  | v :: vs => lastD v vs

/-! Sample payloads used by the concrete witnesses below. -/

/-- A payload whose first candidate has one text part and finish reason
STOP, with no prompt feedback. -/
def dataStop : GenerateContentResponseData :=
  { candidates := some [⟨some ⟨some (str "model"), some [GeminiPart.text (str "hi")]⟩, some (str "STOP")⟩],
    promptFeedback := none }

/-- A payload blocked for SAFETY whose first candidate still carries one
text part. -/
def dataBlocked : GenerateContentResponseData :=
  { candidates := some [⟨some ⟨some (str "model"), some [GeminiPart.text (str "hello")]⟩, none⟩],
    promptFeedback := some ⟨some (str "SAFETY")⟩ }

/-- A payload blocked for SAFETY whose first candidate has no parts. -/
def dataBlockedEmpty : GenerateContentResponseData :=
  { candidates := some [⟨none, none⟩], promptFeedback := some ⟨some (str "SAFETY")⟩ }

/-- The single-payload response carrying `dataBlocked`. -/
def respBlocked : GoogleLLMResponse := { data := ResponseData.single dataBlocked }

/-! ## Lemmas -/

/-- The source finish-reason check agrees with the spec-side description. -/
theorem handleDataFinishReason_eq_spec (errorFinish : List Str)
    (response : GoogleLLMResponse) (payload : GenerateContentResponseData) :
    DefaultGeminiSafetyHandler.handleDataFinishReason errorFinish response payload =
      specFinishReasonCheck errorFinish response payload := by
  unfold DefaultGeminiSafetyHandler.handleDataFinishReason specFinishReasonCheck
  cases h : (firstCandidate payload).bind Candidate.finishReason with
  | none => simp [jsIncludes]
  | some reason => by_cases hm : reason ∈ errorFinish <;> simp [jsIncludes, jsTemplate, hm]

/-- C1: for every canonical payload, the strict handler's per-payload check
is exactly the spec's fixed two-stage check: a set (non-empty) block reason
rejects with `Prompt blocked: <reason>`; otherwise a first-candidate finish
reason in the configured disallowed set rejects with
`Finish reason: <reason>`; otherwise the payload is returned unchanged.
The default disallowed set is {SAFETY, RECITATION, OTHER}. -/
theorem claim1_strict_enforce_two_stage :
    (∀ (errorFinish : List Str) (response : GoogleLLMResponse)
        (payload : GenerateContentResponseData),
      DefaultGeminiSafetyHandler.handleData errorFinish response payload =
        enforceSpec errorFinish response payload) ∧
    DefaultGeminiSafetyHandler.defaultErrorFinish =
      [str "SAFETY", str "RECITATION", str "OTHER"] := by
  constructor
  · intro errorFinish response payload
    unfold DefaultGeminiSafetyHandler.handleData
      DefaultGeminiSafetyHandler.handleDataPromptFeedback enforceSpec
    cases h : payload.promptFeedback.bind PromptFeedback.blockReason with
    | none => simp [truthyStr, handleDataFinishReason_eq_spec]
    | some reason =>
      cases reason with
      | nil => simp [truthyStr, handleDataFinishReason_eq_spec]
      | cons c cs => simp [truthyStr, jsTemplate]
  · rfl

/-- If the inherited strict check rejects, the recovering handler returns
`setMessage` applied to the payload. -/
theorem msgHandleData_of_error (errorFinish : List Str) (msg : Str)
    (forceNewMessage : Bool) (response : GoogleLLMResponse)
    (data : GenerateContentResponseData) (e : GErr)
    (hrej : DefaultGeminiSafetyHandler.handleData errorFinish response data = .error e) :
    MessageGeminiSafetyHandler.handleData errorFinish msg forceNewMessage response data =
      .ok (MessageGeminiSafetyHandler.setMessage msg forceNewMessage data) := by
  unfold MessageGeminiSafetyHandler.handleData
  rw [hrej]

/-- When `forceNewMessage` is set or the first candidate has no parts,
`setMessage` substitutes the placeholder content. -/
theorem setMessage_replaces (msg : Str) (forceNewMessage : Bool)
    (data : GenerateContentResponseData)
    (h : forceNewMessage = true ∨ (firstParts data).getD [] = []) :
    firstContent (MessageGeminiSafetyHandler.setMessage msg forceNewMessage data) =
      some { role := some (str "model"), parts := some [GeminiPart.text msg] } := by
  have hcond : (forceNewMessage || ((firstParts data).getD []).isEmpty) = true := by
    rcases h with h | h <;> simp [h]
  unfold MessageGeminiSafetyHandler.setMessage
  rw [hcond]
  simp [firstContent, firstCandidate]

/-- When the payload already has at least one part and `forceNewMessage`
is unset, `setMessage` keeps the payload unchanged. -/
theorem setMessage_keeps (msg : Str) (forceNewMessage : Bool)
    (data : GenerateContentResponseData) (hf : forceNewMessage = false)
    (hne : (firstParts data).getD [] ≠ []) :
    MessageGeminiSafetyHandler.setMessage msg forceNewMessage data = data := by
  have hcond : (forceNewMessage || ((firstParts data).getD []).isEmpty) = false := by
    rcases hl : (firstParts data).getD [] with _ | ⟨p, ps⟩
    · exact absurd hl hne
    · simp [hf, hl]
  unfold MessageGeminiSafetyHandler.setMessage
  rw [hcond]
  simp

/-- A truthy block reason makes the strict per-payload check reject with
`Prompt blocked: <reason>`. -/
theorem handleData_of_blockReason (errorFinish : List Str)
    (response : GoogleLLMResponse) (data : GenerateContentResponseData) (r : Str)
    (hb : data.promptFeedback.bind PromptFeedback.blockReason = some r) (hr : r ≠ []) :
    DefaultGeminiSafetyHandler.handleData errorFinish response data =
      .error (.safety response (str "Prompt blocked: " ++ r)) := by
  unfold DefaultGeminiSafetyHandler.handleData
    DefaultGeminiSafetyHandler.handleDataPromptFeedback
  rw [hb]
  rcases r with _ | ⟨c, cs⟩
  · exact absurd rfl hr
  · simp [truthyStr, jsTemplate]

/-- C2: whenever the safety checks reject a payload, the recovering
handler returns (rather than raises) `setMessage` of the payload; the
result's first candidate content is the placeholder
`{role:"model", parts:[Text msg]}` when `forceNewMessage` is set or the
payload's first candidate has no parts, and is the unchanged original
payload when it already has at least one part and `forceNewMessage` is
unset. -/
theorem claim2_recovering_substitution (errorFinish : List Str) (msg : Str)
    (forceNewMessage : Bool) (response : GoogleLLMResponse)
    (data : GenerateContentResponseData) (e : GErr)
    (hrej : DefaultGeminiSafetyHandler.handleData errorFinish response data = .error e) :
    MessageGeminiSafetyHandler.handleData errorFinish msg forceNewMessage response data =
      .ok (MessageGeminiSafetyHandler.setMessage msg forceNewMessage data) ∧
    ((forceNewMessage = true ∨ (firstParts data).getD [] = []) →
      firstContent (MessageGeminiSafetyHandler.setMessage msg forceNewMessage data) =
        some { role := some (str "model"), parts := some [GeminiPart.text msg] }) ∧
    (forceNewMessage = false → (firstParts data).getD [] ≠ [] →
      MessageGeminiSafetyHandler.setMessage msg forceNewMessage data = data) :=
  ⟨msgHandleData_of_error errorFinish msg forceNewMessage response data e hrej,
   fun h => setMessage_replaces msg forceNewMessage data h,
   fun hf hne => setMessage_keeps msg forceNewMessage data hf hne⟩

/-- Witness for C2 at concrete inputs: a blocked payload with no parts is
substituted by the placeholder content. -/
theorem claim2_witness :
    MessageGeminiSafetyHandler.handleData DefaultGeminiSafetyHandler.defaultErrorFinish
        (str "Filtered") false respBlocked dataBlockedEmpty =
      .ok (MessageGeminiSafetyHandler.setMessage (str "Filtered") false dataBlockedEmpty) ∧
    firstContent (MessageGeminiSafetyHandler.setMessage (str "Filtered") false dataBlockedEmpty) =
      some { role := some (str "model"), parts := some [GeminiPart.text (str "Filtered")] } :=
  ⟨(claim2_recovering_substitution DefaultGeminiSafetyHandler.defaultErrorFinish
      (str "Filtered") false respBlocked dataBlockedEmpty
      (.safety respBlocked (str "Prompt blocked: SAFETY")) (by decide)).1,
   (claim2_recovering_substitution DefaultGeminiSafetyHandler.defaultErrorFinish
      (str "Filtered") false respBlocked dataBlockedEmpty
      (.safety respBlocked (str "Prompt blocked: SAFETY")) (by decide)).2.1
      (Or.inr (by decide))⟩

/-- C9: the recovering per-payload check is total — whatever the
underlying checks throw is caught, and a payload is always returned. -/
theorem claim9_recovering_never_raises (errorFinish : List Str) (msg : Str)
    (forceNewMessage : Bool) (response : GoogleLLMResponse)
    (data : GenerateContentResponseData) :
    ∃ d, MessageGeminiSafetyHandler.handleData errorFinish msg forceNewMessage
      response data = .ok d := by
  unfold MessageGeminiSafetyHandler.handleData
  cases h : DefaultGeminiSafetyHandler.handleData errorFinish response data with
  | ok ret => exact ⟨ret, rfl⟩
  | error e => exact ⟨MessageGeminiSafetyHandler.setMessage msg forceNewMessage data, rfl⟩

/-- Counterexample to C3 as stated: a SAFETY-blocked payload that already
has a (non-placeholder) part is returned unchanged by the recovering
variant with `forceNewMessage` unset, so its sole part is not the
configured placeholder text. -/
theorem claim3_counterexample :
    dataBlocked.promptFeedback.bind PromptFeedback.blockReason = some (str "SAFETY") ∧
    MessageGeminiSafetyHandler.handleData DefaultGeminiSafetyHandler.defaultErrorFinish
        (str "Filtered2") false respBlocked dataBlocked = .ok dataBlocked ∧
    firstParts dataBlocked ≠ some [GeminiPart.text (str "Filtered2")] := by
  refine ⟨by decide, ?_, by decide⟩
  decide

/-- C3 (amended): for every payload whose `promptFeedback.blockReason`
equals "SAFETY", the strict check rejects with a message containing
"SAFETY"; the recovering variant returns a payload — with the sole part
being the configured placeholder text when `forceNewMessage` is set or
the first candidate has no parts, and with the original payload kept
unchanged otherwise. -/
theorem claim3_blocked_safety (errorFinish : List Str) (msg : Str)
    (forceNewMessage : Bool) (response : GoogleLLMResponse)
    (data : GenerateContentResponseData)
    (hb : data.promptFeedback.bind PromptFeedback.blockReason = some (str "SAFETY")) :
    (∃ m, DefaultGeminiSafetyHandler.handleData errorFinish response data =
        .error (.safety response m) ∧ str "SAFETY" <:+: m) ∧
    MessageGeminiSafetyHandler.handleData errorFinish msg forceNewMessage response data =
      .ok (MessageGeminiSafetyHandler.setMessage msg forceNewMessage data) ∧
    ((forceNewMessage = true ∨ (firstParts data).getD [] = []) →
      firstParts (MessageGeminiSafetyHandler.setMessage msg forceNewMessage data) =
        some [GeminiPart.text msg]) ∧
    (forceNewMessage = false → (firstParts data).getD [] ≠ [] →
      MessageGeminiSafetyHandler.setMessage msg forceNewMessage data = data) := by
  have herr := handleData_of_blockReason errorFinish response data (str "SAFETY") hb
    (by decide)
  refine ⟨⟨str "Prompt blocked: " ++ str "SAFETY", herr, ⟨str "Prompt blocked: ", [], by simp⟩⟩,
    msgHandleData_of_error errorFinish msg forceNewMessage response data _ herr, ?_, ?_⟩
  · intro h
    have := setMessage_replaces msg forceNewMessage data h
    simp [firstParts, this]
  · exact fun hf hne => setMessage_keeps msg forceNewMessage data hf hne

/-- Witness for C3 (amended) at concrete inputs. -/
theorem claim3_witness :
    (∃ m, DefaultGeminiSafetyHandler.handleData DefaultGeminiSafetyHandler.defaultErrorFinish
        respBlocked dataBlockedEmpty = .error (.safety respBlocked m) ∧ str "SAFETY" <:+: m) ∧
    MessageGeminiSafetyHandler.handleData DefaultGeminiSafetyHandler.defaultErrorFinish
        (str "Filtered3") true respBlocked dataBlockedEmpty =
      .ok (MessageGeminiSafetyHandler.setMessage (str "Filtered3") true dataBlockedEmpty) ∧
    firstParts (MessageGeminiSafetyHandler.setMessage (str "Filtered3") true dataBlockedEmpty) =
      some [GeminiPart.text (str "Filtered3")] := by
  have h := claim3_blocked_safety DefaultGeminiSafetyHandler.defaultErrorFinish
    (str "Filtered3") true respBlocked dataBlockedEmpty (by decide)
  exact ⟨h.1, h.2.1, h.2.2.1 (Or.inl rfl)⟩

/-- C7: the safe wrapper runs the safety handler first; when the handler
throws a `GoogleAISafetyError`, the wrapper computes the builder over the
error's carried response, attaches that value as the error's `reply`, and
rethrows the same error; when the handler succeeds, the wrapper returns
the builder applied to the handler's output. -/
theorem claim7_safe_wrapper {α : Type}
    (safetyHandle : GoogleLLMResponse → Except GErr GoogleLLMResponse)
    (responseTo : GoogleLLMResponse → Except GErr α) (response : GoogleLLMResponse) :
    (∀ (r : GoogleLLMResponse) (m : Str) (v : α),
      safetyHandle response = .error (.safety r m) → responseTo r = .ok v →
        safeResponseTo safetyHandle responseTo response =
          .error (GErrWithReply.safety r m (some v))) ∧
    (∀ (r : GoogleLLMResponse) (v : α),
      safetyHandle response = .ok r → responseTo r = .ok v →
        safeResponseTo safetyHandle responseTo response = .ok v) := by
  constructor
  · intro r m v hh hb
    simp [safeResponseTo, hh, hb]
  · intro r v hh hb
    simp [safeResponseTo, hh, hb]

/-- Witness for C7 at concrete inputs: the default strict handler rejects
`respBlocked`, and the safe string builder attaches the would-be text
"hello" as the error's reply. -/
theorem claim7_witness :
    safeResponseTo (DefaultGeminiSafetyHandler.handle DefaultGeminiSafetyHandler.defaultErrorFinish)
        responseToString respBlocked =
      .error (GErrWithReply.safety respBlocked (str "Prompt blocked: SAFETY") (some (str "hello"))) :=
  (claim7_safe_wrapper
    (DefaultGeminiSafetyHandler.handle DefaultGeminiSafetyHandler.defaultErrorFinish)
    responseToString respBlocked).1 respBlocked (str "Prompt blocked: SAFETY") (str "hello")
    (by decide) (by decide)

/-- Value of the `maxOutputTokens` field when present (in-range means
nonnegative). -/
theorem claim8_validate_params (params : GoogleAIModelParams) :
    (((∃ x, params.maxOutputTokens = some x ∧ x < 0) ∨
      (∃ x, params.temperature = some x ∧ (x < 0 ∨ 1 < x)) ∨
      (∃ x, params.topP = some x ∧ (x < 0 ∨ 1 < x)) ∨
      (∃ x, params.topK = some x ∧ x < 0)) →
      ∃ m, validateGeminiParams params = .error (.jsError m)) ∧
    ((∀ x, params.maxOutputTokens = some x → 0 ≤ x) →
     (∀ x, params.temperature = some x → 0 ≤ x ∧ x ≤ 1) →
     (∀ x, params.topP = some x → 0 ≤ x ∧ x ≤ 1) →
     (∀ x, params.topK = some x → 0 ≤ x) →
      validateGeminiParams params = .ok ()) := by
  constructor
  · intro hviol
    unfold validateGeminiParams
    split_ifs with h1 h2 h3 h4
    · exact ⟨_, rfl⟩
    · exact ⟨_, rfl⟩
    · exact ⟨_, rfl⟩
    · exact ⟨_, rfl⟩
    · exfalso
      rcases hviol with ⟨x, hx, hlt⟩ | ⟨x, hx, hlt⟩ | ⟨x, hx, hlt⟩ | ⟨x, hx, hlt⟩
      · exact h1 (by simp [numTruthy, hx]; constructor <;> [exact fun h => absurd h (by linarith); linarith])
      · exact h2 (by simp [numTruthy, hx]; refine ⟨fun h => ?_, hlt⟩; rcases hlt with hlt | hlt <;> linarith)
      · exact h3 (by simp [numTruthy, hx]; refine ⟨fun h => ?_, hlt⟩; rcases hlt with hlt | hlt <;> linarith)
      · exact h4 (by simp [numTruthy, hx]; constructor <;> [exact fun h => absurd h (by linarith); linarith])
  · intro hmax htemp htopP htopK
    unfold validateGeminiParams
    split_ifs with h1 h2 h3 h4
    · exfalso
      rcases hx : params.maxOutputTokens with _ | x <;> simp [numTruthy, hx] at h1
      exact absurd h1.2 (not_lt.mpr (hmax x hx))
    · exfalso
      rcases hx : params.temperature with _ | x <;> simp [numTruthy, hx] at h2
      rcases h2.2 with h | h
      · exact absurd h (not_lt.mpr (htemp x hx).1)
      · exact absurd h (not_lt.mpr (htemp x hx).2)
    · exfalso
      rcases hx : params.topP with _ | x <;> simp [numTruthy, hx] at h3
      rcases h3.2 with h | h
      · exact absurd h (not_lt.mpr (htopP x hx).1)
      · exact absurd h (not_lt.mpr (htopP x hx).2)
    · exfalso
      rcases hx : params.topK with _ | x <;> simp [numTruthy, hx] at h4
      exact absurd h4.2 (not_lt.mpr (htopK x hx))
    · rfl

/-- Witness for C8 at concrete inputs: an out-of-range temperature is
rejected with an error, and an in-range parameter set passes. -/
theorem claim8_witness :
    (∃ m, validateGeminiParams
      { maxOutputTokens := none, temperature := some (2 : ℚ), topP := none, topK := none } =
        .error (.jsError m)) ∧
    validateGeminiParams
      { maxOutputTokens := some (7 : ℚ), temperature := some (1 : ℚ),
        topP := some (0 : ℚ), topK := some (4 : ℚ) } = .ok () :=
  ⟨(claim8_validate_params _).1 (Or.inr (Or.inl ⟨2, rfl, Or.inr (by norm_num)⟩)),
   (claim8_validate_params _).2
     (fun x hx => by simp at hx; simp [← hx])
     (fun x hx => by simp at hx; constructor <;> simp [← hx])
     (fun x hx => by simp at hx; constructor <;> simp [← hx])
     (fun x hx => by simp at hx; simp [← hx])⟩

/-! ## Batch normalization lemmas -/

/-- Destructure a payload with a present first-parts chain. -/
theorem firstParts_destruct (d : GenerateContentResponseData) (ps : List GeminiPart)
    (h : firstParts d = some ps) :
    ∃ c0 rest cv, d.candidates = some (c0 :: rest) ∧ c0.content = some cv ∧
      cv.parts = some ps := by
  rw [firstParts, Option.bind_eq_some] at h
  obtain ⟨cv, hcv, hps⟩ := h
  rw [firstContent, Option.bind_eq_some] at hcv
  obtain ⟨c0, hc0, hcont⟩ := hcv
  rw [firstCandidate, Option.bind_eq_some] at hc0
  obtain ⟨l, hl, hhead⟩ := hc0
  cases l with
  | nil => simp at hhead
  | cons a t =>
    simp at hhead
    subst hhead
    exact ⟨a, t, cv, hl, hcont, hps⟩

/-- One reduce step on an accumulator with a present parts chain appends
the element's parts and overwrites `promptFeedback`. -/
theorem foldStep_of_firstParts (acc val : GenerateContentResponseData)
    (ps : List GeminiPart) (h : firstParts acc = some ps) :
    ∃ acc2, foldStep acc val = .ok acc2 ∧
      firstParts acc2 = some (ps ++ (firstParts val).getD []) ∧
      acc2.promptFeedback = val.promptFeedback := by
  obtain ⟨c0, rest, cv, hc, hcont, hps⟩ := firstParts_destruct acc ps h
  refine ⟨{ candidates := some ({ c0 with content := some { cv with parts := some (ps ++ (firstParts val).getD []) } } :: rest), promptFeedback := val.promptFeedback }, ?_, ?_, ?_⟩
  · simp [foldStep, hc, hcont, hps]
  · simp [firstParts, firstContent, firstCandidate]
  · rfl

/-- `lastD` only looks at its first argument's feedback when the list is
empty. -/
theorem lastD_promptFeedback (a b : GenerateContentResponseData)
    (vs : List GenerateContentResponseData)
    (hab : a.promptFeedback = b.promptFeedback) :
    (lastD a vs).promptFeedback = (lastD b vs).promptFeedback := by
  cases vs with
  | nil => exact hab
  | cons w ws => rfl

/-- The reduce fold, seeded with an accumulator whose parts chain is
present, concatenates every element's parts and ends with the last
element's `promptFeedback`. -/
theorem foldAll_spec (vs : List GenerateContentResponseData) :
    ∀ (acc : GenerateContentResponseData) (ps : List GeminiPart),
      firstParts acc = some ps →
      ∃ r, foldAll acc vs = .ok r ∧
        firstParts r = some (ps ++ partsConcat vs) ∧
        r.promptFeedback = (lastD acc vs).promptFeedback := by
  induction vs with
  | nil =>
    intro acc ps h
    exact ⟨acc, rfl, by simpa [partsConcat] using h, rfl⟩
  | cons v vs ih =>
    intro acc ps h
    obtain ⟨acc2, hstep, hparts, hpf⟩ := foldStep_of_firstParts acc v ps h
    obtain ⟨r, hfold, hparts2, hpf2⟩ := ih acc2 _ hparts
    refine ⟨r, ?_, ?_, ?_⟩
    · simp [foldAll, hstep, hfold]
    · rw [hparts2]
      simp [partsConcat, List.append_assoc]
    · rw [hpf2]
      exact lastD_promptFeedback acc2 v vs hpf

/-- C4: normalizing a batch response (with the reduce's implicit
preconditions satisfied: nonempty, and a present first-element parts
chain when there are two or more elements) yields one payload whose first
candidate's parts are the concatenation, in encounter order, of every
element's first-candidate parts, and whose `promptFeedback` equals the
last element's `promptFeedback`. -/
theorem claim4_batch_normalize (d0 : GenerateContentResponseData)
    (rest : List GenerateContentResponseData)
    (hwf : rest ≠ [] → (firstParts d0).isSome = true) :
    ∃ r, responseToGenerateContentResponseData { data := ResponseData.array (d0 :: rest) } = .ok r ∧
      (firstParts r).getD [] = partsConcat (d0 :: rest) ∧
      r.promptFeedback = (lastD d0 rest).promptFeedback := by
  cases rest with
  | nil =>
    refine ⟨d0, rfl, ?_, rfl⟩
    simp [partsConcat]
  | cons v vs =>
    have hsome := hwf (by simp)
    obtain ⟨ps, hps⟩ := Option.isSome_iff_exists.mp hsome
    obtain ⟨r, hfold, hparts, hpf⟩ := foldAll_spec (v :: vs) d0 ps hps
    refine ⟨r, ?_, ?_, ?_⟩
    · simpa [responseToGenerateContentResponseData, jsReduce] using hfold
    · rw [hparts]
      simp [partsConcat, hps]
    · exact hpf

/-- Witness for C4 at concrete inputs: a batch of two payloads with parts
[hi] and [hello] collapses to parts [hi, hello] with the second payload's
`promptFeedback`. -/
theorem claim4_witness :
    ∃ r, responseToGenerateContentResponseData
        { data := ResponseData.array [dataStop, dataBlocked] } = .ok r ∧
      (firstParts r).getD [] = partsConcat [dataStop, dataBlocked] ∧
      r.promptFeedback = (lastD dataStop [dataBlocked]).promptFeedback :=
  claim4_batch_normalize dataStop [dataBlocked] (fun _ => by decide)

/-- C10: normalize on an array is partial — an empty batch fails with the
untyped reduce-of-empty-array runtime error; a singleton batch returns its
element unchanged (whatever its shape); a batch of two or more elements
whose first element lacks the `candidates[0].content.parts` chain fails
with an untyped runtime TypeError, not a typed error and not a payload. -/
theorem claim10_normalize_undefined_cases :
    (∃ m, responseToGenerateContentResponseData { data := ResponseData.array [] } =
      .error (.jsRuntime m)) ∧
    (∀ d, responseToGenerateContentResponseData { data := ResponseData.array [d] } = .ok d) ∧
    (∀ d0 v vs, firstParts d0 = none →
      ∃ m, responseToGenerateContentResponseData
        { data := ResponseData.array (d0 :: v :: vs) } = .error (.jsRuntime m)) := by
  refine ⟨⟨_, rfl⟩, fun d => rfl, ?_⟩
  intro d0 v vs h
  have hstep : foldStep d0 v =
      .error (.jsRuntime (str "TypeError: cannot read properties of undefined")) := by
    rcases hc : d0.candidates with _ | l
    · simp [foldStep, hc]
    · rcases l with _ | ⟨c0, rest⟩
      · simp [foldStep, hc]
      · rcases hcont : c0.content with _ | cv
        · simp [foldStep, hc, hcont]
        · rcases hps : cv.parts with _ | ps
          · simp [foldStep, hc, hcont, hps]
          · exfalso
            have hsome : firstParts d0 = some ps := by
              simp [firstParts, firstContent, firstCandidate, hc, hcont, hps]
            rw [hsome] at h
            cases h
  exact ⟨str "TypeError: cannot read properties of undefined",
    by simp [responseToGenerateContentResponseData, jsReduce, foldAll, hstep]⟩

/-- Witness for C10 at concrete inputs: a singleton malformed batch is
returned as-is, while the same malformed payload first in a two-element
batch makes normalize fail with a runtime error. -/
theorem claim10_witness :
    responseToGenerateContentResponseData { data := ResponseData.array [dataBlockedEmpty] } =
      .ok dataBlockedEmpty ∧
    ∃ m, responseToGenerateContentResponseData
      { data := ResponseData.array [dataBlockedEmpty, dataStop] } = .error (.jsRuntime m) :=
  ⟨claim10_normalize_undefined_cases.2.1 dataBlockedEmpty,
   claim10_normalize_undefined_cases.2.2 dataBlockedEmpty dataStop [] (by decide)⟩

/-- C6: encoding a System message with plain-string text `t` yields
exactly two provider contents in order: a user turn carrying `t`, then
the synthetic model acknowledgment turn with fixed text "Ok". -/
theorem claim6_system_message (t : Str) :
    systemMessageToContent { msgType := str "system", content := MessageContent.plain t } =
      .ok [⟨some (str "user"), some [GeminiPart.text t]⟩,
           ⟨some (str "model"), some [GeminiPart.text (str "Ok")]⟩] := rfl

/-! ## String-splitting lemmas for the data-URI round trip -/

/-- `splitOnChar` never returns the empty list. -/
theorem splitOnChar_ne_nil (sep : Char) (l : Str) : splitOnChar sep l ≠ [] := by
  cases l with
  | nil => simp [splitOnChar]
  | cons c cs =>
    unfold splitOnChar
    cases h : splitOnChar sep cs with
    | nil => simp
    | cons hd tl => by_cases hc : c = sep <;> simp [hc]

/-- Splitting a string that does not contain the separator returns the
string as a single segment. -/
theorem splitOnChar_no_sep (sep : Char) (a : Str) (h : sep ∉ a) :
    splitOnChar sep a = [a] := by
  induction a with
  | nil => rfl
  | cons c cs ih =>
    have hc : c ≠ sep := by
      intro hcs
      exact h (by simp [hcs])
    have hcs' : sep ∉ cs := by
      intro hm
      exact h (by simp [hm])
    simp only [splitOnChar, ih hcs']
    simp [hc]

/-- Splitting at the first separator occurrence: the separator-free
prefix becomes the first segment. -/
theorem splitOnChar_append_sep (sep : Char) (a b : Str) (h : sep ∉ a) :
    splitOnChar sep (a ++ sep :: b) = a :: splitOnChar sep b := by
  induction a with
  | nil =>
    simp only [List.nil_append]
    cases hb : splitOnChar sep b with
    | nil => exact absurd hb (splitOnChar_ne_nil sep b)
    | cons hd tl => simp [splitOnChar, hb]
  | cons c cs ih =>
    have hc : c ≠ sep := by
      intro hcs
      exact h (by simp [hcs])
    have hcs' : sep ∉ cs := by
      intro hm
      exact h (by simp [hm])
    simp only [List.cons_append, splitOnChar, List.append_eq]
    rw [ih hcs']
    simp [hc]

/-- A string starts with any of its prefixes. -/
theorem jsStartsWith_append (p r : Str) : jsStartsWith (p ++ r) p = true := by
  induction p with
  | nil => cases r <;> rfl
  | cons c cs ih => simp [jsStartsWith, ih]

/-- Encoding a well-formed `data:` URI extracts exactly its mime type and
its base64 payload. -/
theorem messageContentImageUrl_dataUri (mime payload : Str)
    (hm1 : ':' ∉ mime) (hm2 : ';' ∉ mime) (hm3 : ',' ∉ mime)
    (hp1 : ',' ∉ payload) (hp2 : ':' ∉ payload) :
    messageContentImageUrl (ImageUrlField.direct (dataUri mime payload)) =
      .ok (GeminiPart.inlineData mime (some payload)) := by
  have h1 : dataUri mime payload =
      str "data" ++ ':' :: (mime ++ (str ";base64," ++ payload)) := by
    have hd : str "data:" = str "data" ++ [':'] := rfl
    rw [dataUri, hd]
    simp [List.append_assoc]
  have hrest : ':' ∉ mime ++ (str ";base64," ++ payload) := by
    intro hmem
    rcases List.mem_append.mp hmem with hx | hx
    · exact hm1 hx
    · rcases List.mem_append.mp hx with hx | hx
      · revert hx
        decide
      · exact hp2 hx
  have hsplit1 : splitOnChar ':' (dataUri mime payload) =
      str "data" :: [mime ++ (str ";base64," ++ payload)] := by
    rw [h1, splitOnChar_append_sep ':' (str "data") _ (by decide),
      splitOnChar_no_sep ':' _ hrest]
  have h2 : mime ++ (str ";base64," ++ payload) =
      mime ++ ';' :: (str "base64," ++ payload) := by
    have hs : str ";base64," = ';' :: str "base64," := rfl
    rw [hs]
    simp
  have hsplit2 : splitOnChar ';' (mime ++ (str ";base64," ++ payload)) =
      mime :: splitOnChar ';' (str "base64," ++ payload) := by
    rw [h2]
    exact splitOnChar_append_sep ';' mime _ hm2
  have h3 : dataUri mime payload =
      (str "data:" ++ mime ++ str ";base64") ++ ',' :: payload := by
    have hs : str ";base64," = str ";base64" ++ [','] := rfl
    rw [dataUri, hs]
    simp [List.append_assoc]
  have hpre : ',' ∉ str "data:" ++ mime ++ str ";base64" := by
    intro hmem
    rcases List.mem_append.mp hmem with hx | hx
    · rcases List.mem_append.mp hx with hx | hx
      · revert hx
        decide
      · exact hm3 hx
    · revert hx
      decide
  have hsplit3 : splitOnChar ',' (dataUri mime payload) =
      (str "data:" ++ mime ++ str ";base64") :: [payload] := by
    rw [h3, splitOnChar_append_sep ',' _ _ hpre, splitOnChar_no_sep ',' payload hp1]
  have hne : (dataUri mime payload).isEmpty = false := by
    rw [h1]
    rfl
  have hsw : jsStartsWith (dataUri mime payload) (str "data:") = true := by
    have hshape : dataUri mime payload =
        str "data:" ++ (mime ++ (str ";base64," ++ payload)) := by
      rw [dataUri]
      simp [List.append_assoc]
    rw [hshape]
    exact jsStartsWith_append _ _
  simp only [messageContentImageUrl, hne, hsw, hsplit1, hsplit3]
  simp [hsplit2]

/-- C5: part-level round trip — decoding the encoding of a text part
gives back the same text, and decoding the encoding of an image part
holding a well-formed `data:` URI (mime type free of separators,
payload in the base64 alphabet, hence free of ',' and ':') gives back
exactly the same URI, mime type and payload preserved byte-for-byte. -/
theorem claim5_roundtrip :
    (∀ t, contentComplexToPart (MessageContentComplex.text t) = .ok (GeminiPart.text t) ∧
      partToContent (GeminiPart.text t) = some (MessageContentComplex.text t)) ∧
    (∀ mime payload, ':' ∉ mime → ';' ∉ mime → ',' ∉ mime → ',' ∉ payload → ':' ∉ payload →
      ∃ p, contentComplexToPart
          (MessageContentComplex.imageUrl (.direct (dataUri mime payload))) = .ok p ∧
        partToContent p =
          some (MessageContentComplex.imageUrl (.direct (dataUri mime payload)))) := by
  constructor
  · intro t
    exact ⟨rfl, rfl⟩
  · intro mime payload hm1 hm2 hm3 hp1 hp2
    refine ⟨GeminiPart.inlineData mime (some payload), ?_, ?_⟩
    · exact messageContentImageUrl_dataUri mime payload hm1 hm2 hm3 hp1 hp2
    · simp [partToContent, inlineDataPartToMessageContent, jsTemplate, dataUri]

/-- Witness for C5 at a concrete `data:` URI. -/
theorem claim5_witness :
    ∃ p, contentComplexToPart (MessageContentComplex.imageUrl
        (.direct (dataUri (str "image/png") (str "QUJD")))) = .ok p ∧
      partToContent p = some (MessageContentComplex.imageUrl
        (.direct (dataUri (str "image/png") (str "QUJD")))) :=
  claim5_roundtrip.2 (str "image/png") (str "QUJD")
    (by decide) (by decide) (by decide) (by decide) (by decide)
